import Mathlib

/-!
Verification of the WorldQuant alpha-testing pipeline (src/main.py, src/api.py,
src/generate_alphas_v2.py) as a shallow embedding in Lean.

Conventions of the embedding:
* Network interaction is modelled by response oracles (functions from an
  attempt index to an abstract response); each oracle consultation corresponds
  to exactly one HTTP request issued by the source.
* Python dicts holding string keys in insertion order are modelled as
  association lists `List (String × _)`.
* Python floats are modelled as rationals; `round(x, 2)` is modelled by
  round-half-to-even (Python's rounding mode) on rationals.
* Unbounded `while True` polling loops take a fuel parameter; retry recursion
  on a decrementing integer budget is kept as recursion on the budget.
-/

namespace WorldQuant

/-! ## Job Pipeline draw discipline (main.py, continuous_multi_simulate)

Each worker executes, under `alpha_gen_lock`, the draw
`for _ in range(batch_size): alphas.append(next(alpha_gen))` stopping at
`StopIteration`.  On a list-backed finite generator one such locked draw is
`take batch_size` / `drop batch_size`.  A concurrent execution of N workers is
an arbitrary interleaving of these atomic draws, i.e. a schedule listing which
worker holds the lock at each draw. -/

structure PipelineState where
  source : List String
  drawn : List (Nat × List String)
deriving DecidableEq

/-- One locked draw by worker `w`: take up to `batch_size` expressions from the
shared generator (lines 79-85 of main.py). -/
def drawBatch (batch_size : Nat) (w : Nat) (st : PipelineState) : PipelineState :=
  { source := st.source.drop batch_size
    drawn := st.drawn ++ [(w, st.source.take batch_size)] }

/-- Run a schedule of locked draws, one per listed worker id. -/
def runSchedule (batch_size : Nat) : List Nat → PipelineState → PipelineState
  | [], st => st
  | w :: ws, st => runSchedule batch_size ws (drawBatch batch_size w st)

/-- All expressions drawn so far, in draw order. -/
def drawnExprs (st : PipelineState) : List String :=
  (st.drawn.map Prod.snd).flatten

theorem drawnExprs_drawBatch (B w : Nat) (st : PipelineState) :
    drawnExprs (drawBatch B w st) = drawnExprs st ++ st.source.take B := by
  simp [drawnExprs, drawBatch]

theorem runSchedule_inv (B : Nat) (ws : List Nat) (st : PipelineState) :
    drawnExprs (runSchedule B ws st) ++ (runSchedule B ws st).source
      = drawnExprs st ++ st.source := by
  induction ws generalizing st with
  | nil => rfl
  | cons w ws ih =>
      rw [runSchedule, ih, drawnExprs_drawBatch]
      simp [drawBatch]

theorem runSchedule_source (B : Nat) (ws : List Nat) (st : PipelineState) :
    (runSchedule B ws st).source = st.source.drop (B * ws.length) := by
  induction ws generalizing st with
  | nil => simp [runSchedule]
  | cons w ws ih =>
      rw [runSchedule, ih]
      simp [drawBatch, List.drop_drop, Nat.mul_succ]
      ring_nf

/-! ## Worker loop shape (main.py lines 78-99)

The worker body is `while True:` with no `break`: every iteration draws a batch
(possibly empty, possibly shorter than `batch_size`) and unconditionally passes
it to `multi_simulate`; a `None` result merely `continue`s.  The model records
the batches handed to `multi_simulate`; the downstream metric fetching does not
influence the loop control and is elided here. -/

structure WorkerState where
  source : List String
  submissions : List (List String)
deriving DecidableEq

/-- One iteration of the `while True` body: locked draw, then the drawn list is
passed to `multi_simulate` unconditionally (there is no emptiness or
short-batch check and no `break` in the loop). -/
def continuous_multi_simulate_iter (batch_size : Nat) (st : WorkerState) : WorkerState :=
  { source := st.source.drop batch_size
    submissions := st.submissions ++ [st.source.take batch_size] }

/-- `n` consecutive iterations of the worker loop (the real loop runs forever;
`n` selects a finite prefix of its execution). -/
def continuous_multi_simulate_run (batch_size : Nat) : Nat → WorkerState → WorkerState
  | 0, st => st
  | n + 1, st => continuous_multi_simulate_run batch_size n (continuous_multi_simulate_iter batch_size st)

/-! ## Result records and metric fetching (api.py, get_alpha_result) -/

/-- A scalar cell of a result record: integer count, rational metric, or
string (the alpha source code or ID). -/
inductive Val where
  | i (n : Int)
  | q (x : Rat)
  | s (v : String)
deriving DecidableEq

/-- Round half to even at integer precision (Python's `round` for ties). -/
def roundHalfEven (x : Rat) : Int :=
  let f := Int.floor x
  let frac := x - f
  if frac < 1 / 2 then f
  else if 1 / 2 < frac then f + 1
  else if f % 2 = 0 then f else f + 1

/-- Python's `round(x, 2)` on the rational model of floats. -/
def pyRound2 (x : Rat) : Rat :=
  (roundHalfEven (x * 100) : Rat) / 100

/-- The `is` sub-object of the JSON body returned for `GET /alphas/{id}`. -/
structure IsPnl where
  pnl : Int
  longCount : Int
  shortCount : Int
  turnover : Rat
  returns : Rat
  drawdown : Rat
  margin : Rat
deriving DecidableEq

/-- The JSON body returned for `GET /alphas/{id}` (the fields the code reads). -/
structure IsResult where
  is : IsPnl
  sharpe : Rat
  fitness : Rat
  regularCode : String
deriving DecidableEq

/-- The `return_dict` built by `get_alpha_result` on a non-empty response
(api.py lines 130-142), keys in insertion order. -/
def mkReturnDict (r : IsResult) : List (String × Val) :=
  [("pnl", Val.i r.is.pnl),
   ("longCount", Val.i r.is.longCount),
   ("shortCount", Val.i r.is.shortCount),
   ("turnover", Val.q (pyRound2 (r.is.turnover * 100))),
   ("returns", Val.q (pyRound2 (r.is.returns * 100))),
   ("drawdown", Val.q (pyRound2 (r.is.drawdown * 100))),
   ("margin", Val.q (pyRound2 (r.is.margin * 10000))),
   ("sharpe", Val.q r.sharpe),
   ("fitness", Val.q r.fitness),
   ("alpha", Val.s r.regularCode)]

/-- `get_alpha_result` (api.py lines 110-142) against a response oracle:
`resp k` is the body of the k-th `GET /alphas/{id}` request, `none` meaning an
empty response.  Returns the result and the number of requests issued. -/
def get_alpha_result (resp : Nat → Option IsResult) (k : Nat) (maxRetries : Int) :
    Option (List (String × Val)) × Nat :=
  if maxRetries ≤ 0 then (none, 0)
  else
    match resp k with
    | none =>
        let p := get_alpha_result resp (k + 1) (maxRetries - 1)
        (p.1, p.2 + 1)
    | some r => (some (mkReturnDict r), 1)
termination_by maxRetries.toNat
decreasing_by omega

/-- `get_self_corr` (api.py lines 303-320) against a response oracle:
`resp k` is the body of the k-th correlations request, `none` meaning an empty
response.  Returns the result and the number of requests issued.  The prod and
power-pool variants are textually identical up to the URL, which is part of
the oracle. -/
def get_self_corr (resp : Nat → Option (Rat × Rat)) (k : Nat) (maxRetries : Int) :
    Option (List Rat) × Nat :=
  if 0 < maxRetries then
    match resp k with
    | none =>
        let p := get_self_corr resp (k + 1) (maxRetries - 1)
        (p.1, p.2 + 1)
    | some r => (some [r.1, r.2], 1)
  else (none, 0)
termination_by maxRetries.toNat
decreasing_by omega

/-- Per-child record assembly in the worker (main.py lines 92-94): the dict
holding the `*alphaID` entry is immediately overwritten by the rebinding
`result_dict = get_alpha_result(...)`; `fetch` stands for that call. -/
def processChild (fetch : String → Option (List (String × Val))) (alphaID : String) :
    Option (List (String × Val)) :=
  let result_dict : Option (List (String × Val)) := some [("*alphaID", Val.s alphaID)]
  let result_dict := fetch alphaID
  result_dict

/-! ## Multi-simulation submission and polling (api.py, multi_simulate)

The source posts the batch, then loops `while True`: each iteration issues
`sim_progress = s.get(progress_url)` OUTSIDE the `try`, and inside the `try`
reads `children` (a missing key raises `KeyError` → sleep and repoll) and
fetches each child simulation (a `ConnectionError` there is caught and the
whole submission is retried with a decremented budget).  A `ConnectionError`
raised by the poll `s.get(progress_url)` itself is not inside the `try` and
propagates out of the function. -/

/-- Result of one `s.get(progress_url)` poll. -/
inductive PollResult where
  | children (ids : List String)
  | keyError
  | connError
deriving DecidableEq

/-- Result of one `s.get(simulation_url + "/" + sim_id)` child fetch. -/
inductive FetchResult where
  | ok (alphaID : String)
  | connError
deriving DecidableEq

/-- Network oracle for `multi_simulate`, indexed by a global request counter. -/
structure MsimEnv where
  poll : Nat → PollResult
  fetch : Nat → FetchResult

/-- Observable outcome of `multi_simulate`. -/
inductive MsimOutcome where
  | ok (alphaIDs : List String)
  | exhausted
  | uncaught
  | outOfFuel
deriving DecidableEq

/-- The child-fetch loop (api.py lines 226-229); `none` means a
`ConnectionError` was raised while fetching a child result. -/
def fetchChildren (env : MsimEnv) : Nat → List String → List String → Option (List String) × Nat
  | t, [], acc => (some acc, t)
  | t, _ :: rest, acc =>
      match env.fetch t with
      | FetchResult.ok a => fetchChildren env (t + 1) rest (acc ++ [a])
      | FetchResult.connError => (none, t + 1)

/-- The `while True` polling loop of `multi_simulate` (api.py lines 222-236).
`fuel` bounds the number of loop iterations and retries modelled; `t` is the
global request counter; `m` the remaining retry budget.  A `connError` on the
poll request itself yields `uncaught` — that request is outside the
`try`/`except` in the source. -/
def multiSimLoop (env : MsimEnv) : Nat → Nat → Int → MsimOutcome × Nat
  | 0, t, _ => (MsimOutcome.outOfFuel, t)
  | fuel + 1, t, m =>
      match env.poll t with
      | PollResult.connError => (MsimOutcome.uncaught, t + 1)
      | PollResult.keyError => multiSimLoop env fuel (t + 1) m
      | PollResult.children ids =>
          match fetchChildren env (t + 1) ids [] with
          | (some alphas, tp) => (MsimOutcome.ok alphas, tp)
          | (none, tp) =>
              if m - 1 ≤ 0 then (MsimOutcome.exhausted, tp)
              else multiSimLoop env fuel tp (m - 1)

/-- `multi_simulate` (api.py lines 189-238): budget check, then submission and
polling.  Returns the outcome and the final request counter. -/
def multi_simulate (env : MsimEnv) (fuel t : Nat) (maxRetries : Int) : MsimOutcome × Nat :=
  if maxRetries ≤ 0 then (MsimOutcome.exhausted, t)
  else multiSimLoop env fuel t maxRetries

/-! ## Login (api.py, login) -/

/-- Network oracle for `login`: `postAuth k` is the status code of the k-th
`POST /authentication`; `personaHeader k` whether its `WWW-Authenticate` header
equals `"persona"`; `biometric k` the status code of the follow-up
`GET /authentication` after the biometric step. -/
structure AuthEnv where
  postAuth : Nat → Nat
  personaHeader : Nat → Bool
  biometric : Nat → Nat

/-- `login` (api.py lines 13-59) against an oracle.  Returns the session
(`some ()` for a live session) and the number of HTTP requests issued. -/
def login (env : AuthEnv) (k : Nat) (maxRetries : Int) : Option Unit × Nat :=
  if maxRetries ≤ 0 then (none, 0)
  else
    let code := env.postAuth k
    if code = 401 then
      if env.personaHeader k then
        let code2 := env.biometric k
        if code2 = 204 then
          let p := login env (k + 1) (maxRetries - 1)
          (p.1, p.2 + 3)
        else if code2 = 200 then (some (), 3)
        else
          let p := login env (k + 1) (maxRetries - 1)
          (p.1, p.2 + 3)
      else (none, 1)
    else if code = 200 then (some (), 1)
    else (none, 1)
termination_by maxRetries.toNat
decreasing_by
  all_goals omega

/-! ## Data-field catalog (api.py, get_datafields) -/

/-- Python dict assignment `d[k] = v` on an insertion-ordered association
list: update in place when the key exists, append otherwise. -/
def dictInsert (d : List (String × String)) (k v : String) : List (String × String) :=
  if d.any (fun p => p.1 = k) then d.map (fun p => if p.1 = k then (k, v) else p)
  else d ++ [(k, v)]

/-- One page of the server's field list at the given `limit` and `offset`
query parameters (standard offset pagination over the full result set). -/
def pageAt (fields : List (String × String)) (limit offset : Nat) : List (String × String) :=
  (fields.drop offset).take limit

/-- `get_datafields` (api.py lines 62-107) against a server holding `fields`
(its reported `count` is `fields.length`).  Returns the accumulated
`result_dict` and the number of HTTP requests issued (one count request plus
`count // limit + 1` page requests). -/
def get_datafields (fields : List (String × String)) (limit : Int) :
    Option (List (String × String)) × Nat :=
  if limit ≤ 0 ∨ 50 < limit then (none, 0)
  else
    let l := limit.toNat
    let count := fields.length
    let pages := (List.range (count / l + 1)).map (fun i => pageAt fields l (l * i))
    (some (pages.flatten.foldl (fun d p => dictInsert d p.1 p.2) []), 1 + (count / l + 1))

/-! ## Super-alpha simulation (api.py, super_simulate)

On a `ConnectionError` during polling the source retries by the recursive call
(api.py line 284) which passes its arguments positionally:
`..., testPeriod, unitHandling, nanHandling, maxRetries` — so the slot of the
`componentActivation` parameter receives `nanHandling`.  The embedding keeps
that argument list verbatim. -/

/-- The `settings` object posted by `super_simulate` (api.py line 269), fields
in the order of the source dict literal. -/
structure SuperSettings where
  componentActivation : String
  decay : Int
  delay : Int
  instrumentType : String
  language : String
  maxTrade : String
  nanHandling : String
  neutralization : String
  pasteurization : String
  region : String
  selectionHandling : String
  selectionLimit : Int
  testPeriod : String
  truncation : Rat
  unitHandling : String
  «universe» : String
deriving DecidableEq

/-- Result of one poll of the super-simulation progress URL: the terminal
`alpha` field, a `KeyError` (still pending), or a `ConnectionError` reaching
the `except` handler. -/
inductive SuperPollResult where
  | alpha (id : String)
  | keyError
  | connError
deriving DecidableEq

/-- First non-pending poll event at or after time `t`, within `fuel` polls. -/
def firstResolve (env : Nat → SuperPollResult) : Nat → Nat → Option (Nat × SuperPollResult)
  | 0, _ => none
  | fuel + 1, t =>
      match env t with
      | SuperPollResult.keyError => firstResolve env fuel (t + 1)
      | r => some (t, r)

/-- `super_simulate` (api.py lines 241-286) against a poll oracle.  Returns
the alpha ID (if resolved) and the list of submitted `settings` objects in
submission order; `none` with the submissions so far models budget
exhaustion or the poll not resolving within `fuel`. -/
def super_simulate (env : Nat → SuperPollResult) (fuel t : Nat) (combo selection : String)
    (delay decay : Int) (neutralization : String) (truncation : Rat) (selectionLimit : Int)
    (region univ maxTrade nanHandling pasteurization selectionHandling
     testPeriod unitHandling componentActivation : String) (maxRetries : Int) :
    Option String × List SuperSettings :=
  if maxRetries ≤ 0 then (none, [])
  else
    let sim_settings : SuperSettings :=
      { componentActivation := componentActivation, decay := decay, delay := delay,
        instrumentType := "EQUITY", language := "FASTEXPR", maxTrade := maxTrade,
        nanHandling := nanHandling, neutralization := neutralization,
        pasteurization := pasteurization, region := region,
        selectionHandling := selectionHandling, selectionLimit := selectionLimit,
        testPeriod := testPeriod, truncation := truncation,
        unitHandling := unitHandling, «universe» := univ }
    match firstResolve env fuel t with
    | none => (none, [sim_settings])
    | some (_, SuperPollResult.keyError) => (none, [sim_settings])
    | some (_, SuperPollResult.alpha id) => (some id, [sim_settings])
    | some (tp, SuperPollResult.connError) =>
        let p := super_simulate env fuel (tp + 1) combo selection delay decay neutralization
          truncation selectionLimit region univ maxTrade nanHandling pasteurization
          selectionHandling testPeriod unitHandling nanHandling (maxRetries - 1)
        (p.1, sim_settings :: p.2)
termination_by maxRetries.toNat
decreasing_by omega

/-! ## CSV layer (main.py: yield_csv_lines, export_result_dict_to_csv;
generate_alphas_v2.py: generate_alphas) -/

/-- The CSV quote character. -/
def quoteChar : Char := Char.ofNat 34

/-- Split file content into lines as Python file iteration does: a trailing
chunk without a final newline still forms a line; a trailing newline does not
open an empty line. -/
def splitLinesAux : List Char → List Char → List (List Char)
  | [], acc => if acc.isEmpty then [] else [acc.reverse]
  | c :: cs, acc =>
      if c = '\n' then acc.reverse :: splitLinesAux cs []
      else splitLinesAux cs (c :: acc)

/-- Fields of one CSV row under `csv.reader`'s default dialect: `delim` splits
fields outside quotes, a quote at field start opens a quoted section in which
the delimiter is literal and a doubled quote is a literal quote. -/
def csvRowAux (delim : Char) : Bool → List Char → List Char → List (List Char)
  | _, [], acc => [acc.reverse]
  | false, c :: cs, acc =>
      if c = delim then acc.reverse :: csvRowAux delim false cs []
      else if c = quoteChar then
        if acc.isEmpty then csvRowAux delim true cs acc
        else csvRowAux delim false cs (c :: acc)
      else csvRowAux delim false cs (c :: acc)
  | true, c :: cs, acc =>
      if c = quoteChar then
        match cs with
        | [] => [acc.reverse]
        | c2 :: cs2 =>
            if c2 = quoteChar then csvRowAux delim true cs2 (quoteChar :: acc)
            else if c2 = delim then acc.reverse :: csvRowAux delim false cs2 []
            else csvRowAux delim false cs2 (c2 :: acc)
      else csvRowAux delim true cs (c :: acc)

/-- `yield_csv_lines` (main.py lines 41-52) on file `content` with the `"|"`
delimiter: each line is parsed by `csv.reader` and the fields are re-joined by
`''.join(row)`. -/
def yield_csv_lines (content : String) : List String :=
  (splitLinesAux content.data []).map
    (fun line => String.mk ((csvRowAux '|' false line []).flatten))

/-- The file content written by `generate_alphas` (generate_alphas_v2.py lines
223-225): each expression followed by a newline, onto an empty file. -/
def generate_alphas_write : List String → String
  | [] => ""
  | a :: rest => a ++ "\n" ++ generate_alphas_write rest

/-- The header row written for a fresh file by `export_result_dict_to_csv`
(main.py lines 62-66): one `f"{head} {delimiter} "` cell per key. -/
def headerRow (result_dict : List (String × Val)) (delimiter : String) : String :=
  String.join (result_dict.map (fun p => p.1 ++ " " ++ delimiter ++ " "))

/-- Python `str` of a record cell. -/
def valStr : Val → String
  | Val.i n => toString n
  | Val.q x => toString x
  | Val.s v => v

/-- A data row written by `export_result_dict_to_csv` (main.py lines 68-71):
one `f"{val} {delimiter} "` cell per value. -/
def dataRow (result_dict : List (String × Val)) (delimiter : String) : String :=
  String.join (result_dict.map (fun p => valStr p.2 ++ " " ++ delimiter ++ " "))

/-- `export_result_dict_to_csv` (main.py lines 55-72).  The file is modelled
as `none` (does not exist) or `some rows`; a multi-character delimiter leaves
the file untouched; a missing file first receives the header row derived from
this record's keys; then the record's value row is appended. -/
def export_result_dict_to_csv (file : Option (List String))
    (result_dict : List (String × Val)) (delimiter : String) : Option (List String) :=
  if delimiter.length ≠ 1 then file
  else
    let rows := match file with
      | none => [headerRow result_dict delimiter]
      | some rows => rows
    some (rows ++ [dataRow result_dict delimiter])

/-- A sequence of appends through `export_result_dict_to_csv` with the
pipeline's `"|"` delimiter. -/
def runExports : List (List (String × Val)) → Option (List String) → Option (List String)
  | [], file => file
  | r :: rest, file => runExports rest (export_result_dict_to_csv file r "|")

/-! ## Theorems -/

/-- C1: with the locked draw as the atomic unit, any interleaving of worker
draws that offers enough draws to drain a finite source of K expressions
consumes every expression exactly once — the concatenation of the drawn
batches is exactly the original source, so nothing is drawn twice and nothing
is skipped — and the source is empty once drained. -/
theorem job_pipeline_exactly_once (src : List String) (batch_size : Nat) (sched : List Nat)
    (hB : 1 ≤ batch_size) (hK : src.length ≤ batch_size * sched.length) :
    drawnExprs (runSchedule batch_size sched ⟨src, []⟩) = src
  ∧ (runSchedule batch_size sched ⟨src, []⟩).source = [] := by
  have hsrc : (runSchedule batch_size sched ⟨src, []⟩).source = [] := by
    rw [runSchedule_source]
    exact List.drop_eq_nil_of_le hK
  have hinv := runSchedule_inv batch_size sched ⟨src, []⟩
  rw [hsrc] at hinv
  simp only [drawnExprs, List.append_nil, List.map_nil, List.flatten_nil,
    List.nil_append] at hinv
  exact ⟨hinv, hsrc⟩

/-- C1 witness: three expressions, batch size 2, two draws by workers 0, 1. -/
theorem job_pipeline_exactly_once_witness :
    drawnExprs (runSchedule 2 [0, 1] ⟨["a", "b", "c"], []⟩) = ["a", "b", "c"]
  ∧ (runSchedule 2 [0, 1] ⟨["a", "b", "c"], []⟩).source = [] :=
  job_pipeline_exactly_once ["a", "b", "c"] 2 [0, 1] (by decide) (by decide)

/-- C2: the claim says a draw yielding fewer than `batch_size` expressions
terminates the worker loop and that an empty draw is never submitted.  The
code has `while True:` with no `break`: with one remaining expression and
batch size 10, the short batch `["e1"]` is submitted, the loop continues, and
the next (empty) draw `[]` is submitted as well. -/
theorem continuous_multi_simulate_no_stop :
    continuous_multi_simulate_run 10 2 ⟨["e1"], []⟩ = ⟨[], [["e1"], []]⟩ := rfl

theorem get_alpha_result_all_empty (resp : Nat → Option IsResult)
    (h : ∀ j, resp j = none) :
    ∀ (n k : Nat) (m : Int), m.toNat = n → get_alpha_result resp k m = (none, n) := by
  intro n
  induction n with
  | zero =>
      intro k m hm
      rw [get_alpha_result]
      have hm0 : m ≤ 0 := by omega
      simp [hm0]
  | succ n ih =>
      intro k m hm
      rw [get_alpha_result]
      have hm0 : ¬ m ≤ 0 := by omega
      have hrec := ih (k + 1) (m - 1) (by omega)
      simp [hm0, h k, hrec]

theorem get_self_corr_all_empty (resp : Nat → Option (Rat × Rat))
    (h : ∀ j, resp j = none) :
    ∀ (n k : Nat) (m : Int), m.toNat = n → get_self_corr resp k m = (none, n) := by
  intro n
  induction n with
  | zero =>
      intro k m hm
      rw [get_self_corr]
      have hm0 : ¬ 0 < m := by omega
      simp [hm0]
  | succ n ih =>
      intro k m hm
      rw [get_self_corr]
      have hm0 : 0 < m := by omega
      have hrec := ih (k + 1) (m - 1) (by omega)
      simp [hm0, h k, hrec]

/-- C3: when every response is empty, `get_alpha_result` and `get_self_corr`
issue exactly `r` requests and return an absent result for every budget
`r ≥ 1`, and return absent after zero requests for every `r ≤ 0`. -/
theorem retry_budget_exhaustion (resp : Nat → Option IsResult)
    (respc : Nat → Option (Rat × Rat)) (r : Int)
    (hresp : ∀ j, resp j = none) (hrespc : ∀ j, respc j = none) :
    (1 ≤ r →
      get_alpha_result resp 0 r = (none, r.toNat)
      ∧ get_self_corr respc 0 r = (none, r.toNat)
      ∧ (r.toNat : Int) = r)
  ∧ (r ≤ 0 →
      get_alpha_result resp 0 r = (none, 0)
      ∧ get_self_corr respc 0 r = (none, 0)) := by
  have h1 := get_alpha_result_all_empty resp hresp r.toNat 0 r rfl
  have h2 := get_self_corr_all_empty respc hrespc r.toNat 0 r rfl
  constructor
  · intro hr
    exact ⟨h1, h2, by omega⟩
  · intro hr
    have h0 : r.toNat = 0 := by omega
    rw [h0] at h1 h2
    exact ⟨h1, h2⟩

/-- C3 witness: budget 3 with every response empty gives exactly 3 attempts
and an absent result for both operations. -/
theorem retry_budget_exhaustion_witness :
    get_alpha_result (fun _ => none) 0 3 = (none, 3)
  ∧ get_self_corr (fun _ => none) 0 3 = (none, 3) :=
  have h := retry_budget_exhaustion (fun _ => none) (fun _ => none) 3
    (fun _ => rfl) (fun _ => rfl)
  ⟨(h.1 (by decide)).1, (h.1 (by decide)).2.1⟩

/-- C4: the claim says a connection-level failure while polling the job's
location reference is caught and the batch resubmitted.  In the code the poll
request `s.get(progress_url)` sits outside the `try`/`except`, so a
`ConnectionError` it raises propagates uncaught out of `multi_simulate`: with
the very first poll failing at connection level and a full budget of 3, the
outcome is `uncaught` after a single request. -/
theorem multi_simulate_poll_uncaught :
    multi_simulate ⟨fun _ => PollResult.connError, fun _ => FetchResult.ok "A"⟩ 5 0 3
      = (MsimOutcome.uncaught, 1) := rfl

/-- C5: the claim says every appended record carries the alpha ID and the
source code.  In the worker the dict holding `*alphaID` is immediately
overwritten by the return of `get_alpha_result`, whose keys are exactly the
ten metric keys plus `alpha` (the source code) — the alpha ID is absent. -/
theorem result_record_missing_alphaID (a : String) (r : IsResult) :
    processChild (fun _ => some (mkReturnDict r)) a = some (mkReturnDict r)
  ∧ (mkReturnDict r).map Prod.fst
      = ["pnl", "longCount", "shortCount", "turnover", "returns", "drawdown",
         "margin", "sharpe", "fitness", "alpha"]
  ∧ "*alphaID" ∉ (mkReturnDict r).map Prod.fst := by
  have hkeys : (mkReturnDict r).map Prod.fst
      = ["pnl", "longCount", "shortCount", "turnover", "returns", "drawdown",
         "margin", "sharpe", "fitness", "alpha"] := rfl
  exact ⟨rfl, hkeys, by rw [hkeys]; decide⟩

theorem flatten_pages (l n : Nat) (xs : List (String × String)) :
    ((List.range n).map (fun i => pageAt xs l (l * i))).flatten = xs.take (l * n) := by
  induction n with
  | zero => simp
  | succ n ih =>
      rw [List.range_succ, List.map_append, List.flatten_append, ih]
      simp only [List.map_cons, List.map_nil, List.flatten_cons, List.flatten_nil,
        List.append_nil, pageAt]
      rw [Nat.mul_succ, List.take_add]

theorem foldl_dictInsert_fresh (ps : List (String × String)) :
    ∀ acc : List (String × String),
      (ps.map Prod.fst).Nodup →
      (∀ p ∈ ps, acc.any (fun q => q.1 = p.1) = false) →
      ps.foldl (fun d p => dictInsert d p.1 p.2) acc = acc ++ ps := by
  induction ps with
  | nil => intro acc _ _; simp
  | cons p ps ih =>
      intro acc hnd hfresh
      rw [List.map_cons, List.nodup_cons] at hnd
      have hp : acc.any (fun q => q.1 = p.1) = false := hfresh p (by simp)
      have hins : dictInsert acc p.1 p.2 = acc ++ [p] := by
        simp [dictInsert, hp]
      rw [List.foldl_cons, hins, ih (acc ++ [p]) hnd.2 ?fresh]
      · simp
      case fresh =>
        intro q hq
        rw [List.any_append]
        have hq1 : acc.any (fun x => x.1 = q.1) = false :=
          hfresh q (List.mem_cons_of_mem _ hq)
        have hq2 : p.1 ≠ q.1 := by
          intro hcontra
          exact hnd.1 (hcontra ▸ List.mem_map_of_mem Prod.fst hq)
        simp [hq1, hq2]

/-- C6: for every page size limit in [1,50] and every server field list, the
returned mapping is exactly the server's field list — so with distinct field
IDs its size equals the server-reported count with no duplicate keys, however
the items fall across pages — after one count request plus `count // limit + 1`
page requests; for every limit outside [1,50] the result is absent after zero
requests. -/
theorem get_datafields_spec (fields : List (String × String)) (limit : Int)
    (hnd : (fields.map Prod.fst).Nodup) :
    (1 ≤ limit → limit ≤ 50 →
      get_datafields fields limit
        = (some fields, 1 + (fields.length / limit.toNat + 1)))
  ∧ (limit ≤ 0 ∨ 50 < limit → get_datafields fields limit = (none, 0)) := by
  constructor
  · intro h1 h2
    have hno : ¬ (limit ≤ 0 ∨ 50 < limit) := by omega
    rw [get_datafields, if_neg hno]
    have hl : 0 < limit.toNat := by omega
    have hcover : fields.length ≤ limit.toNat * (fields.length / limit.toNat + 1) := by
      have hmod := Nat.div_add_mod fields.length limit.toNat
      have hlt := Nat.mod_lt fields.length hl
      rw [Nat.mul_succ]
      omega
    simp only [flatten_pages]
    rw [List.take_of_length_le hcover,
      foldl_dictInsert_fresh fields [] hnd (fun p _ => rfl)]
    simp
  · intro h
    rw [get_datafields, if_pos h]

/-- C6 witness: three fields at limit 2 (three requests), and limit 60
rejected with zero requests. -/
theorem get_datafields_spec_witness :
    get_datafields [("f1", "d1"), ("f2", "d2"), ("f3", "d3")] 2
      = (some [("f1", "d1"), ("f2", "d2"), ("f3", "d3")], 3)
  ∧ get_datafields [("f1", "d1")] 60 = (none, 0) :=
  ⟨(get_datafields_spec [("f1", "d1"), ("f2", "d2"), ("f3", "d3")] 2
      (by decide)).1 (by decide) (by decide),
   (get_datafields_spec [("f1", "d1")] 60 (by decide)).2 (by decide)⟩

/-- C7 counterexample: the round trip is not the identity on every list of
strings — an expression containing the delimiter `|` is split by `csv.reader`
and re-joined without the delimiter, so `a|b` reads back as `ab`. -/
theorem roundtrip_counterexample :
    yield_csv_lines (generate_alphas_write ["a|b"]) = ["ab"]
  ∧ yield_csv_lines (generate_alphas_write ["a|b"]) ≠ ["a|b"] :=
  ⟨by decide, by decide⟩

theorem strMk_data (s : String) : String.mk s.data = s := rfl

theorem splitLinesAux_append (l : List Char) (hl : '\n' ∉ l) :
    ∀ (rest acc : List Char),
      splitLinesAux (l ++ '\n' :: rest) acc
        = (acc.reverse ++ l) :: splitLinesAux rest [] := by
  induction l with
  | nil => intro rest acc; simp [splitLinesAux]
  | cons c l ih =>
      intro rest acc
      have hc : ¬ c = '\n' := fun h => hl (by simp [h])
      have hl2 : '\n' ∉ l := fun h => hl (List.mem_cons_of_mem _ h)
      rw [List.cons_append, splitLinesAux, if_neg hc, ih hl2 rest (c :: acc)]
      simp

theorem csvRowAux_clean (l : List Char) (hd : '|' ∉ l) (hq : quoteChar ∉ l) :
    ∀ acc : List Char, csvRowAux '|' false l acc = [acc.reverse ++ l] := by
  induction l with
  | nil => intro acc; simp [csvRowAux]
  | cons c l ih =>
      intro acc
      have h1 : ¬ c = '|' := fun h => hd (by simp [h])
      have h2 : ¬ c = quoteChar := fun h => hq (by simp [h])
      have hd2 : '|' ∉ l := fun h => hd (List.mem_cons_of_mem _ h)
      have hq2 : quoteChar ∉ l := fun h => hq (List.mem_cons_of_mem _ h)
      rw [csvRowAux, if_neg h1, if_neg h2, ih hd2 hq2 (c :: acc)]
      simp

/-- C7 amended: the round trip through the replay-mode backing file is the
identity on every list of expressions that contain no delimiter `|`, no
double-quote character and no newline or carriage-return characters — the
characters that `csv.reader` or the line splitting treat specially. -/
theorem roundtrip_amended (alphas : List String)
    (h : ∀ a ∈ alphas,
      '|' ∉ a.data ∧ quoteChar ∉ a.data ∧ '\n' ∉ a.data ∧ '\r' ∉ a.data) :
    yield_csv_lines (generate_alphas_write alphas) = alphas := by
  induction alphas with
  | nil => rfl
  | cons a rest ih =>
      obtain ⟨hd, hq, hn, _⟩ := h a (by simp)
      have hdata : (generate_alphas_write (a :: rest)).data
          = a.data ++ '\n' :: (generate_alphas_write rest).data := by
        show (a ++ "\n" ++ generate_alphas_write rest).data = _
        have hnl : ("\n" : String).data = ['\n'] := by decide
        rw [String.data_append, String.data_append, hnl, List.append_assoc]
        rfl
      unfold yield_csv_lines
      rw [hdata, splitLinesAux_append a.data hn, List.map_cons]
      have hline : String.mk ((csvRowAux '|' false (List.reverse [] ++ a.data) []).flatten)
          = a := by
        rw [List.reverse_nil, List.nil_append, csvRowAux_clean a.data hd hq []]
        simp [strMk_data]
      rw [hline]
      have ih2 := ih (fun b hb => h b (List.mem_cons_of_mem _ hb))
      unfold yield_csv_lines at ih2
      rw [ih2]

/-- C7 witness: two ordinary alpha expressions survive the round trip. -/
theorem roundtrip_amended_witness :
    yield_csv_lines (generate_alphas_write ["rank(-close)", "ts_rank(volume,20)"])
      = ["rank(-close)", "ts_rank(volume,20)"] :=
  roundtrip_amended ["rank(-close)", "ts_rank(volume,20)"] (by decide)

theorem runExports_some (recs : List (List (String × Val))) :
    ∀ rows : List String,
      runExports recs (some rows)
        = some (rows ++ recs.map (fun r => dataRow r "|")) := by
  induction recs with
  | nil => intro rows; simp [runExports]
  | cons r rest ih =>
      intro rows
      have hstep : export_result_dict_to_csv (some rows) r "|"
          = some (rows ++ [dataRow r "|"]) := by
        simp [export_result_dict_to_csv, (by decide : ("|" : String).length = 1)]
      rw [runExports, hstep, ih]
      simp

/-- C8: appending any nonempty sequence of records to an initially missing
file writes exactly one header row, first, derived from the key order of the
first record, followed by exactly one data row per record. -/
theorem export_header_once (r : List (String × Val)) (rest : List (List (String × Val))) :
    runExports (r :: rest) none
      = some (headerRow r "|" :: dataRow r "|" :: rest.map (fun x => dataRow x "|")) := by
  have hfirst : export_result_dict_to_csv none r "|"
      = some [headerRow r "|", dataRow r "|"] := by
    simp [export_result_dict_to_csv, (by decide : ("|" : String).length = 1)]
  rw [runExports, hfirst, runExports_some]
  simp

/-- C9: a login response whose status is neither 200 nor 401 returns an absent
session immediately after the single authentication request — no retry, no
budget decrement, no further request. -/
theorem login_server_error_no_retry (env : AuthEnv) (maxRetries : Int) (c : Nat)
    (hm : 1 ≤ maxRetries) (hc : env.postAuth 0 = c) (h200 : c ≠ 200) (h401 : c ≠ 401) :
    login env 0 maxRetries = (none, 1) := by
  rw [login, if_neg (by omega : ¬ maxRetries ≤ 0)]
  simp only [hc]
  rw [if_neg h401, if_neg h200]

/-- C9 witness: status 500 on the authentication POST with budget 3. -/
theorem login_server_error_no_retry_witness :
    login ⟨fun _ => 500, fun _ => false, fun _ => 0⟩ 0 3 = (none, 1) :=
  login_server_error_no_retry ⟨fun _ => 500, fun _ => false, fun _ => 0⟩ 3 500
    (by decide) rfl (by decide) (by decide)

/-- C10: the claim says a retry after a mid-poll connection failure resubmits
the identical job specification.  The recursive call in the source passes its
arguments positionally with `nanHandling` repeated, so the slot of the
`componentActivation` parameter receives `nanHandling`: with
`nanHandling = "ON"` and `componentActivation = "IS"`, a first-poll connection
failure followed by resolution sends two submissions whose
`componentActivation` values are `"IS"` then `"ON"` — not equal. -/
theorem super_simulate_retry_changes_componentActivation :
    ((super_simulate
        (fun t => if t = 0 then SuperPollResult.connError else SuperPollResult.alpha "A1")
        4 0 "combo" "sel" 1 0 "CROWDING" (1 / 25 : Rat) 100 "USA" "TOP3000" "OFF" "ON" "ON"
        "POSITIVE" "P0Y0M0D" "VERIFY" "IS" 3).2.map SuperSettings.componentActivation)
      = ["IS", "ON"]
  ∧ ((super_simulate
        (fun t => if t = 0 then SuperPollResult.connError else SuperPollResult.alpha "A1")
        4 0 "combo" "sel" 1 0 "CROWDING" (1 / 25 : Rat) 100 "USA" "TOP3000" "OFF" "ON" "ON"
        "POSITIVE" "P0Y0M0D" "VERIFY" "IS" 3).2.map SuperSettings.componentActivation)
      ≠ ["IS", "IS"] := by
  have h : ((super_simulate
      (fun t => if t = 0 then SuperPollResult.connError else SuperPollResult.alpha "A1")
      4 0 "combo" "sel" 1 0 "CROWDING" (1 / 25 : Rat) 100 "USA" "TOP3000" "OFF" "ON" "ON"
      "POSITIVE" "P0Y0M0D" "VERIFY" "IS" 3).2.map SuperSettings.componentActivation)
      = ["IS", "ON"] := by
    simp [super_simulate, firstResolve]
  exact ⟨h, by rw [h]; decide⟩

end WorldQuant
